import Mathlib

/-!
Verification of the ASOIT Budget Builder (`app.py`).

The program is a single-session budget-entry tool: club contact fields,
a two-level expense-category taxonomy presented as one dropdown mixing
headers and indented leaf entries, an add-line-item form, an editable
grid that recomputes row totals, and a gated CSV export.

This file gives a shallow embedding of the program's data model and
operations and proves the specification's claims about them.  Strings
are Lean `String`s (lists of characters); Python floats are modelled by
`ℚ`; pandas `NaN`/non-numeric cells are modelled explicitly.
-/

/-! ### Python string helpers -/

/-- Characters treated as whitespace by Python's `str.strip()` and by the
regex class `\s` (ASCII range, which is all the program's inputs use). -/
def isPySpace (c : Char) : Bool :=
  c == ' ' || c == '\t' || c == '\n' || c == '\r' ||
    c == Char.ofNat 11 || c == Char.ofNat 12

/-- Python `str.strip()` on a list of characters: drop whitespace from
both ends. -/
def pyStrip (l : List Char) : List Char :=
  ((l.dropWhile isPySpace).reverse.dropWhile isPySpace).reverse

/-- Python `str.strip()` on a `String`. -/
def pyStripS (s : String) : String := ⟨pyStrip s.data⟩

/-! ### Category taxonomy (`CATEGORY_TREE`, lines 12-42) -/

/-- `CATEGORY_TREE`: ordered mapping from main category to its list of
sub-categories, as written in the source. -/
def CATEGORY_TREE : List (String × List String) :=
  [("Capital Expenses",
     ["Computers",
      "Equipment reusable parts",
      "Storage totes",
      "Items that cost more than organizational supplies and will last more than one year"]),
   ("Organizational Supplies",
     ["National membership dues",
      "Office supplies",
      "Gloves/masks",
      "Items needed for general club operations that aren’t for an event and won’t last more than one year"]),
   ("Marketing Expenses",
     ["Printing costs",
      "Banners/trifolds",
      "Decorations for a campus display",
      "Promotional materials that aren’t club gear"]),
   ("Club Gear",
     ["T-shirts",
      "Sweatshirts",
      "Jackets",
      "Wearable items featuring your club’s logo"]),
   ("Event Supplies",
     ["Food/snacks",
      "Decorations",
      "Items needed to host and run events"])]

/-- `INDENT` (line 44): visual indent prefix of sub-category entries. -/
def INDENT : String := "   "

/-- `HEADER_SUFFIX` (line 45). -/
def HEADER_SUFFIX : String := ":"

/-- Strip trailing empty strings, modelling the `while ... pop()` loop of
lines 65-66. -/
def removeTrailingBlanks (l : List String) : List String :=
  (l.reverse.dropWhile (fun s => s == "")).reverse

/-- `build_category_dropdown_items` (lines 48-67): returns the dropdown's
display items (headers, indented subs, blank spacers) and the mapping from
display string to stored `"Main/Sub"` value (subs only). -/
def build_category_dropdown_items (tree : List (String × List String)) :
    List String × List (String × String) :=
  let folded := tree.foldl
    (fun (acc : List String × List (String × String)) p =>
      (acc.1 ++ [p.1 ++ HEADER_SUFFIX]
             ++ p.2.map (fun sub => INDENT ++ sub)
             ++ [""],
       acc.2 ++ p.2.map (fun sub => (INDENT ++ sub, p.1 ++ "/" ++ sub))))
    ([], [])
  (removeTrailingBlanks folded.1, folded.2)

/-- `DISPLAY_ITEMS` (line 70). -/
def DISPLAY_ITEMS : List String := (build_category_dropdown_items CATEGORY_TREE).1

/-- `DISPLAY_TO_VALUE` (line 70), as an association list (the Python dict
keeps insertion order and its keys are distinct). -/
def DISPLAY_TO_VALUE : List (String × String) :=
  (build_category_dropdown_items CATEGORY_TREE).2

/-- A string is a taxonomy leaf value when it is `Main ++ "/" ++ Sub` for
some main category and one of its sub-categories. -/
def isTaxonomyLeafB (v : String) : Bool :=
  CATEGORY_TREE.any (fun p => p.2.any (fun sub => v == p.1 ++ "/" ++ sub))

/-! ### Email validation (`EMAIL_RE`, `is_valid_email`, lines 75-80) -/

/-- A character admissible in every segment of the email regex
`^[^@\s]+@[^@\s]+\.[^@\s]+$`: not `@` and not whitespace. -/
def emailChar (c : Char) : Bool := !(c == '@') && !(isPySpace c)

/-- `true` iff the list contains a `.` that is not its last element. -/
def hasDotNotLast : List Char → Bool
  | c :: d :: rest => c == '.' || hasDotNotLast (d :: rest)
  | _ => false

/-- Executable matcher for the anchored regex
`^[^@\s]+@[^@\s]+\.[^@\s]+$` (`EMAIL_RE`, line 75): a non-empty run of
non-`@`, non-space characters, an `@`, then a non-empty remainder without
`@` or spaces that contains an interior dot (a dot that is neither the
first nor the last character after the `@`). -/
def emailOk (t : List Char) : Bool :=
  match t.dropWhile (fun c => !(c == '@')) with
  | x :: M =>
      (x == '@') &&
      !(t.takeWhile (fun c => !(c == '@'))).isEmpty &&
      (t.takeWhile (fun c => !(c == '@'))).all (fun c => !(isPySpace c)) &&
      M.all emailChar &&
      hasDotNotLast M.tail
  | [] => false

/-- `is_valid_email` (lines 78-80): strip the input, then match it against
`EMAIL_RE`. -/
def is_valid_email (s : String) : Bool := emailOk (pyStrip s.data)

/-- Declarative reading of the regex `^[^@\s]+@[^@\s]+\.[^@\s]+$`: the
string decomposes as `L ++ "@" ++ A ++ "." ++ B` with `L`, `A`, `B`
non-empty and free of `@` and whitespace. -/
def emailPattern (t : List Char) : Prop :=
  ∃ L A B : List Char,
    t = L ++ '@' :: (A ++ '.' :: B) ∧
    L ≠ [] ∧ A ≠ [] ∧ B ≠ [] ∧
    (∀ c ∈ L, emailChar c = true) ∧
    (∀ c ∈ A, emailChar c = true) ∧
    (∀ c ∈ B, emailChar c = true)

/-! ### Club info (lines 86-109) -/

/-- The four club-info text inputs. -/
structure ClubInfo where
  officialClubName : String
  presidentEmail : String
  treasurerEmail : String
  advisorEmail : String
  deriving DecidableEq

/-- `club_errors` (lines 96-104): the list of club-info validation errors,
in source order. -/
def club_errors (ci : ClubInfo) : List String :=
  (if pyStripS ci.officialClubName == "" then ["Official Club Name is required."] else []) ++
  (if !is_valid_email ci.presidentEmail then ["President Email must be a valid email address."] else []) ++
  (if !is_valid_email ci.treasurerEmail then ["Treasurer Email must be a valid email address."] else []) ++
  (if !is_valid_email ci.advisorEmail then ["Advisor Email must be a valid email address."] else [])

/-! ### Session state and rows -/

/-- A cell of a numeric grid column as returned by the data editor:
a numeric value (a Python number, or a string that `pd.to_numeric`
parses), a non-numeric value, or a missing value (`None`/`NaN`). -/
inductive CellVal where
  | num (q : ℚ)
  | nonNum
  | missing
  deriving DecidableEq

/-- `pd.to_numeric(col, errors="coerce").fillna(0)` on one cell
(lines 213-214 and 225-226): numeric values pass through, non-numeric and
missing values become 0. -/
def toNum : CellVal → ℚ
  | .num q => q
  | .nonNum => 0
  | .missing => 0

/-- One row of `expenses_df`.  Text cells are `Option String` because grid
editing can leave them missing (`NaN`); numeric cells are rationals
(modelling Python floats). -/
structure Row where
  category : Option String
  description : Option String
  qty : ℚ
  amount : ℚ
  totalAmount : ℚ
  date : Option String
  deriving DecidableEq

/-- A row as it comes back from `st.data_editor`: text cells possibly
missing, numeric cells arbitrary (numeric, non-numeric, or missing). -/
structure RawRow where
  category : Option String
  description : Option String
  qty : CellVal
  amount : CellVal
  totalAmount : CellVal
  date : Option String
  deriving DecidableEq

/-- The per-session state the program keeps in `st.session_state`:
the expenses table and the remembered dropdown default. -/
structure SessionState where
  expenses : List Row
  lastValidCategoryDisplay : Option String
  deriving DecidableEq

/-- Initialisation of `last_valid_category_display` (lines 140-143): the
first display item that is a key of `DISPLAY_TO_VALUE`. -/
def initial_last_valid_category_display : Option String :=
  DISPLAY_ITEMS.find? (fun x => (DISPLAY_TO_VALUE.lookup x).isSome)

/-- A fresh session (lines 128-143): empty expenses table, default
category selection. -/
def initState : SessionState :=
  { expenses := [], lastValidCategoryDisplay := initial_last_valid_category_display }

/-! ### Dates -/

/-- A `datetime.date` as produced by `st.date_input`. -/
structure PyDate where
  year : ℕ
  month : ℕ
  day : ℕ
  deriving DecidableEq

/-! ### Decimal rendering of naturals -/

/-- The character of a decimal digit. -/
def toDigit (n : ℕ) : Char := Char.ofNat (48 + n % 10)

/-- Decimal digit string of a natural number, by structural recursion on
a fuel argument (`fuel > n` suffices, since `n / 10 < n` for `n ≥ 10`). -/
def natCharsAux : ℕ → ℕ → List Char
  | 0, _ => []
  | fuel + 1, n =>
      if n < 10 then [toDigit n]
      else natCharsAux fuel (n / 10) ++ [toDigit n]

/-- Decimal digit string of a natural number, most significant digit
first. -/
def natChars (n : ℕ) : List Char := natCharsAux (n + 1) n

/-- Left-pad a character list with `'0'` to length `k`. -/
def padZero (k : ℕ) (l : List Char) : List Char :=
  List.replicate (k - l.length) '0' ++ l

/-- `str(expense_date)` (line 194): Python renders a `date` as
`YYYY-MM-DD` with zero padding. -/
def pyDateStr (d : PyDate) : String :=
  ⟨padZero 4 (natChars d.year) ++ '-' :: (padZero 2 (natChars d.month) ++ '-' :: padZero 2 (natChars d.day))⟩

/-- Check that a string has the shape `YYYY-MM-DD`: ten characters,
digits except for dashes at positions 4 and 7. -/
def isIsoDate (s : String) : Bool :=
  match s.data with
  | [y1, y2, y3, y4, h1, m1, m2, h2, d1, d2] =>
      y1.isDigit && y2.isDigit && y3.isDigit && y4.isDigit &&
      h1 == '-' && m1.isDigit && m2.isDigit &&
      h2 == '-' && d1.isDigit && d2.isDigit
  | _ => false

/-! ### The add-expense form (lines 150-200) -/

/-- The three blocking error messages of the submit handler
(lines 178, 182, 184). -/
def clubInfoErrMsg : String := "Fix Club Info fields above before adding line items."

/-- Error shown when the selected dropdown entry is not a leaf. -/
def headerErrMsg : String := "Please select a sub-category (the indented items), not a header."

/-- Error shown when the description is blank after trimming. -/
def descErrMsg : String := "Description is required."

/-- The submit handler of the `add_expense` form (lines 175-200).
Inputs mirror the form widgets: date, selected display string,
description, quantity (`st.number_input` with `min_value=0, step=1`, so a
natural number), unit amount.  Returns the new session state and the
error message raised, if any.  `total_amount` (line 170) is
`float(qty) * float(amount)`. -/
def addExpense (ci : ClubInfo) (st : SessionState) (expenseDate : PyDate)
    (selectedDisplay description : String) (qty : ℕ) (amount : ℚ) :
    SessionState × Option String :=
  if club_errors ci ≠ [] then
    (st, some clubInfoErrMsg)
  else
    match DISPLAY_TO_VALUE.lookup selectedDisplay with
    | none => (st, some headerErrMsg)
    | some catValue =>
        if pyStripS description == "" then
          (st, some descErrMsg)
        else
          ({ expenses := st.expenses ++
               [{ category := some catValue,
                  description := some (pyStripS description),
                  qty := (qty : ℚ),
                  amount := amount,
                  totalAmount := (qty : ℚ) * amount,
                  date := some (pyDateStr expenseDate) }],
             lastValidCategoryDisplay := some selectedDisplay },
           none)

/-! ### The edit pass over the grid (lines 207-238) -/

/-- Lines 213-214: before the grid is shown, the three numeric columns of
the session table are coerced with `pd.to_numeric(..., errors="coerce").fillna(0)`. -/
def prepDf (raw : List RawRow) : List Row :=
  raw.map (fun r =>
    { category := r.category, description := r.description,
      qty := toNum r.qty, amount := toNum r.amount,
      totalAmount := toNum r.totalAmount, date := r.date })

/-- Lines 225-228: after the grid returns `edited_df`, `Qty.` and
`Amount` are coerced to numbers and `Total Amount` is recomputed as their
product for every row. -/
def editPass (raw : List RawRow) : List Row :=
  raw.map (fun r =>
    let q := toNum r.qty
    let a := toNum r.amount
    { category := r.category, description := r.description,
      qty := q, amount := a, totalAmount := q * a, date := r.date })

/-- Line 235: the recomputed edited table becomes the session table. -/
def applyEditPass (st : SessionState) (raw : List RawRow) : SessionState :=
  { st with expenses := editPass raw }

/-- Line 231: a row has a blank description when
`Description.fillna("").str.strip() == ""`. -/
def blankDesc (r : Row) : Bool := pyStripS (r.description.getD "") == ""

/-- `blank_desc.any()` over the current rows. -/
def blankDescAny (rows : List Row) : Bool := rows.any blankDesc

/-- Line 237: grand total, the sum of the `Total Amount` column. -/
def grandTotal (rows : List Row) : ℚ := (rows.map Row.totalAmount).sum

/-! ### CSV export (lines 243-260) -/

/-- `can_export` (line 250): no club-info errors and no blank
description. -/
def can_export (ci : ClubInfo) (rows : List Row) : Bool :=
  club_errors ci == [] && !(blankDescAny rows)

/-- The download control as rendered (lines 253-260): its disabled flag
and its help message. -/
structure ExportControl where
  disabled : Bool
  helpMsg : Option String
  deriving DecidableEq

/-- Help text shown on the disabled download button (line 259). -/
def exportHelpMsg : String :=
  "Fill Club Info and ensure every row has a Description before exporting."

/-- The `st.download_button` call (lines 253-260): always rendered in the
non-empty-table branch, `disabled = not can_export`, and the help message
is attached exactly when export is blocked. -/
def exportControl (ci : ClubInfo) (rows : List Row) : ExportControl :=
  { disabled := !(can_export ci rows),
    helpMsg := if can_export ci rows then none else some exportHelpMsg }

/-- The whole table/editing/export section runs only when the table is
non-empty (lines 209-260): with an empty table no control is rendered. -/
def renderExport (ci : ClubInfo) (rows : List Row) : Option ExportControl :=
  if rows.isEmpty then none else some (exportControl ci rows)

/-- Decimal rendering of a rational cell value, modelling how pandas
writes the float cells in `to_csv`: sign, integer digits, and — when the
denominator divides a power of ten, as every float does — a fractional
part after a dot.  (The final catch-all branch keeps the function total;
float-derived values never reach it.) -/
def renderQChars (q : ℚ) : List Char :=
  let sign : List Char := if q.num < 0 then ['-'] else []
  let n := q.num.natAbs
  let d := q.den
  match (List.range 1101).find? (fun k => decide (d ∣ 10 ^ k)) with
  | some k =>
      if k = 0 then sign ++ natChars n
      else
        let scaled := n * 10 ^ k / d
        sign ++ natChars (scaled / 10 ^ k) ++ '.' :: padZero k (natChars (scaled % 10 ^ k))
  | none => sign ++ natChars n ++ '/' :: natChars d

/-- String form of `renderQChars`. -/
def renderQ (q : ℚ) : String := ⟨renderQChars q⟩

/-- The exported column names in order (lines 129-137 and 244-247). -/
def EXPORT_HEADER : List String :=
  ["Official Club Name", "President Email", "Treasurer Email", "Advisor Email",
   "Expense Category", "Description", "Qty.", "Amount", "Total Amount", "Date"]

/-- One exported data row (lines 243-247 and 252): the four stripped
club-info fields, then the six table columns; missing text cells export
as empty fields. -/
def exportRow (ci : ClubInfo) (r : Row) : List String :=
  [pyStripS ci.officialClubName, pyStripS ci.presidentEmail,
   pyStripS ci.treasurerEmail, pyStripS ci.advisorEmail,
   r.category.getD "", r.description.getD "",
   renderQ r.qty, renderQ r.amount, renderQ r.totalAmount,
   r.date.getD ""]

/-- The exported CSV, modelled as its rows of cells
(`export_df.to_csv(index=False)`, line 252): the header row followed by
one row per line item in table order. -/
def exportCells (ci : ClubInfo) (rows : List Row) : List (List String) :=
  EXPORT_HEADER :: rows.map (exportRow ci)

/-! ### Helper lemmas: the email matcher agrees with the regex -/

theorem hasDotNotLast_iff (l : List Char) :
    hasDotNotLast l = true ↔ ∃ A B : List Char, l = A ++ '.' :: B ∧ B ≠ [] := by
  induction l with
  | nil =>
      simp only [hasDotNotLast]
      constructor
      · intro h; cases h
      · rintro ⟨A, B, h, hB⟩; exact absurd h (by simp)
  | cons c t ih =>
      cases t with
      | nil =>
          simp only [hasDotNotLast]
          constructor
          · intro h; cases h
          · rintro ⟨A, B, h, hB⟩
            rcases A with _ | ⟨a, A2⟩ <;> simp_all
      | cons d rest =>
          rw [hasDotNotLast]
          constructor
          · intro h
            rcases Bool.or_eq_true_iff.mp h with h1 | h2
            · exact ⟨[], d :: rest, by simp [eq_of_beq h1], by simp⟩
            · obtain ⟨A, B, hdr, hB⟩ := ih.mp h2
              exact ⟨c :: A, B, by simp [hdr], hB⟩
          · rintro ⟨A, B, h, hB⟩
            rcases A with _ | ⟨a, A2⟩
            · simp at h
              simp [h.1]
            · simp at h
              obtain ⟨rfl, h2⟩ := h
              exact Bool.or_eq_true_iff.mpr (Or.inr (ih.mpr ⟨A2, B, h2, hB⟩))

theorem dropWhile_all_cons (p : Char → Bool) (L r : List Char) (x : Char)
    (hL : ∀ c ∈ L, p c = true) (hx : p x = false) :
    (L ++ x :: r).dropWhile p = x :: r := by
  induction L with
  | nil => simp [List.dropWhile, hx]
  | cons a t ih =>
      simp only [List.cons_append, List.dropWhile, hL a (by simp)]
      exact ih (fun c hc => hL c (by simp [hc]))

theorem takeWhile_all_cons (p : Char → Bool) (L r : List Char) (x : Char)
    (hL : ∀ c ∈ L, p c = true) (hx : p x = false) :
    (L ++ x :: r).takeWhile p = L := by
  induction L with
  | nil => simp [List.takeWhile, hx]
  | cons a t ih =>
      simp [List.cons_append, List.takeWhile, hL a (by simp),
        ih (fun c hc => hL c (by simp [hc]))]

/-- The executable matcher `emailOk` accepts exactly the strings matched
by the regex `^[^@\s]+@[^@\s]+\.[^@\s]+$` in its declarative reading. -/
theorem emailOk_iff_emailPattern (t : List Char) :
    emailOk t = true ↔ emailPattern t := by
  constructor
  · intro h
    unfold emailOk at h
    cases hd : t.dropWhile (fun c => !(c == '@')) with
    | nil => rw [hd] at h; cases h
    | cons x M =>
        rw [hd] at h
        simp only [Bool.and_eq_true] at h
        obtain ⟨⟨⟨⟨hx, hne⟩, hsp⟩, hall⟩, hdot⟩ := h
        have hxat : x = '@' := eq_of_beq hx
        subst hxat
        have ht : t = t.takeWhile (fun c => !(c == '@')) ++ '@' :: M := by
          conv_lhs => rw [← List.takeWhile_append_dropWhile (fun c => !(c == '@')) t]
          rw [hd]
        generalize hLdef : t.takeWhile (fun c => !(c == '@')) = L at ht hne hsp
        cases hM : M with
        | nil => rw [hM] at hdot; cases hdot
        | cons m M2 =>
            rw [hM] at hdot
            simp only [List.tail_cons] at hdot
            obtain ⟨A2, B, hM2, hB⟩ := (hasDotNotLast_iff M2).mp hdot
            refine ⟨L, m :: A2, B, ?_, ?_, by simp, hB, ?_, ?_, ?_⟩
            · rw [ht, hM, hM2]; simp
            · intro hcontra
              rw [hcontra] at hne
              simp at hne
            · intro c hc
              have h1 : (!(c == '@')) = true := by
                rw [← hLdef] at hc
                exact List.mem_takeWhile_imp (p := fun c => !(c == '@')) hc
              have h2 := List.all_eq_true.mp hsp c hc
              simp only [emailChar, h1, Bool.true_and]
              simpa using h2
            · intro c hc
              refine List.all_eq_true.mp hall c ?_
              rw [hM, hM2]
              rcases List.mem_cons.mp hc with rfl | hmem
              · simp
              · simp [hmem]
            · intro c hc
              refine List.all_eq_true.mp hall c ?_
              rw [hM, hM2]
              simp [hc]
  · rintro ⟨L, A, B, rfl, hL, hA, hB, pL, pA, pB⟩
    have hp : ∀ c ∈ L, (!(c == '@')) = true := by
      intro c hc
      have := pL c hc
      simp only [emailChar, Bool.and_eq_true] at this
      exact this.1
    have hpat : (!(('@' : Char) == '@')) = false := by decide
    unfold emailOk
    rw [dropWhile_all_cons _ _ _ _ hp hpat, takeWhile_all_cons _ _ _ _ hp hpat]
    simp only [Bool.and_eq_true]
    refine ⟨⟨⟨⟨by decide, by simpa using hL⟩, ?_⟩, ?_⟩, ?_⟩
    · refine List.all_eq_true.mpr (fun c hc => ?_)
      have := pL c hc
      simp only [emailChar, Bool.and_eq_true] at this
      simp [this.2]
    · refine List.all_eq_true.mpr (fun c hc => ?_)
      simp only [List.mem_append, List.mem_cons] at hc
      rcases hc with h | h | h
      · exact pA c h
      · rw [h]; decide
      · exact pB c h
    · rcases A with _ | ⟨a, A2⟩
      · exact absurd rfl hA
      · simp only [List.cons_append, List.tail_cons]
        exact (hasDotNotLast_iff _).mpr ⟨A2, B, rfl, hB⟩

/-! ### Helper lemmas: taxonomy leaves and club-info errors -/

theorem lookup_mem {l : List (String × String)} {a b : String}
    (h : l.lookup a = some b) : (a, b) ∈ l := by
  induction l with
  | nil => cases h
  | cons p t ih =>
      obtain ⟨k, v⟩ := p
      rw [List.lookup] at h
      by_cases hk : a == k
      · rw [hk] at h
        simp only [Option.some.injEq] at h
        subst h
        exact (eq_of_beq hk) ▸ List.mem_cons_self _ _
      · rw [Bool.not_eq_true] at hk
        rw [hk] at h
        exact List.mem_cons_of_mem _ (ih h)

theorem display_values_are_leaves :
    DISPLAY_TO_VALUE.all (fun p => isTaxonomyLeafB p.2) = true := by decide

theorem lookup_value_is_leaf {d v : String}
    (h : DISPLAY_TO_VALUE.lookup d = some v) : isTaxonomyLeafB v = true :=
  List.all_eq_true.mp display_values_are_leaves _ (lookup_mem h)

theorem club_errors_eq_nil_iff (ci : ClubInfo) :
    club_errors ci = [] ↔
      (pyStripS ci.officialClubName ≠ "" ∧
       is_valid_email ci.presidentEmail = true ∧
       is_valid_email ci.treasurerEmail = true ∧
       is_valid_email ci.advisorEmail = true) := by
  unfold club_errors
  constructor
  · intro h
    refine ⟨?_, ?_, ?_, ?_⟩ <;>
      by_contra hc <;> simp [hc] at h
  · rintro ⟨h1, h2, h3, h4⟩
    simp [h1, h2, h3, h4]

/-! ### Helper lemmas: decimal digit strings and dates -/

theorem toDigit_isDigit (n : ℕ) : (toDigit n).isDigit = true := by
  unfold toDigit
  have h : n % 10 < 10 := Nat.mod_lt _ (by omega)
  set m := n % 10 with hm
  clear_value m
  interval_cases m <;> decide

theorem natCharsAux_digits (fuel : ℕ) :
    ∀ n c, c ∈ natCharsAux fuel n → c.isDigit = true := by
  induction fuel with
  | zero => intro n c hc; cases hc
  | succ fuel ih =>
      intro n c hc
      rw [natCharsAux] at hc
      split at hc
      · simp only [List.mem_singleton] at hc
        subst hc
        exact toDigit_isDigit n
      · rcases List.mem_append.mp hc with h | h
        · exact ih _ _ h
        · simp only [List.mem_singleton] at h
          subst h
          exact toDigit_isDigit n

theorem natChars_digits (n : ℕ) : ∀ c ∈ natChars n, c.isDigit = true :=
  fun c hc => natCharsAux_digits (n + 1) n c hc

theorem natCharsAux_length_le :
    ∀ (fuel k n : ℕ), 1 ≤ k → n < 10 ^ k → (natCharsAux fuel n).length ≤ k := by
  intro fuel
  induction fuel with
  | zero => intro k n hk hn; simp [natCharsAux]
  | succ fuel ih =>
      intro k n hk hn
      rw [natCharsAux]
      split
      · simpa using hk
      · have hk2 : 2 ≤ k := by
          rcases Nat.lt_or_ge k 2 with h2 | h2
          · have hk1 : k = 1 := by omega
            subst hk1
            rw [pow_one] at hn
            omega
          · exact h2
        have hdiv : n / 10 < 10 ^ (k - 1) := by
          rw [Nat.div_lt_iff_lt_mul (by norm_num)]
          calc n < 10 ^ k := hn
            _ = 10 ^ (k - 1) * 10 := by
                rw [← pow_succ]
                congr 1
                omega
        have := ih (k - 1) (n / 10) (by omega) hdiv
        simp only [List.length_append, List.length_singleton]
        omega

theorem natChars_length_le (k n : ℕ) (hk : 1 ≤ k) (hn : n < 10 ^ k) :
    (natChars n).length ≤ k :=
  natCharsAux_length_le (n + 1) k n hk hn

theorem padZero_length (k : ℕ) (l : List Char) (h : l.length ≤ k) :
    (padZero k l).length = k := by
  unfold padZero
  simp only [List.length_append, List.length_replicate]
  omega

theorem padZero_digits (k : ℕ) (l : List Char) (h : ∀ c ∈ l, c.isDigit = true) :
    ∀ c ∈ padZero k l, c.isDigit = true := by
  intro c hc
  rcases List.mem_append.mp hc with h1 | h1
  · rw [List.eq_of_mem_replicate h1]
    decide
  · exact h c h1

theorem exists_len2 {α : Type} (l : List α) (h : l.length = 2) :
    ∃ a b, l = [a, b] := by
  rcases l with _ | ⟨a, _ | ⟨b, rest⟩⟩
  · simp at h
  · simp at h
  · have hr : rest = [] := by
      simp only [List.length_cons] at h
      exact List.length_eq_zero.mp (by omega)
    subst hr
    exact ⟨a, b, rfl⟩

theorem exists_len4 {α : Type} (l : List α) (h : l.length = 4) :
    ∃ a b c d, l = [a, b, c, d] := by
  rcases l with _ | ⟨a, _ | ⟨b, _ | ⟨c, _ | ⟨d, rest⟩⟩⟩⟩ <;> simp only [List.length_cons, List.length_nil] at h
  · omega
  · omega
  · omega
  · omega
  · have hr : rest = [] := by
      exact List.length_eq_zero.mp (by omega)
    subst hr
    exact ⟨a, b, c, d, rfl⟩

theorem pyDateStr_isIso (d : PyDate) (hy : d.year ≤ 9999) (hm : d.month ≤ 99)
    (hd : d.day ≤ 99) : isIsoDate (pyDateStr d) = true := by
  have hY : (padZero 4 (natChars d.year)).length = 4 :=
    padZero_length _ _ (natChars_length_le 4 _ (by omega) (by omega))
  have hM : (padZero 2 (natChars d.month)).length = 2 :=
    padZero_length _ _ (natChars_length_le 2 _ (by omega) (by omega))
  have hD : (padZero 2 (natChars d.day)).length = 2 :=
    padZero_length _ _ (natChars_length_le 2 _ (by omega) (by omega))
  have dY := padZero_digits 4 (natChars d.year) (natChars_digits _)
  have dM := padZero_digits 2 (natChars d.month) (natChars_digits _)
  have dD := padZero_digits 2 (natChars d.day) (natChars_digits _)
  obtain ⟨y1, y2, y3, y4, hYe⟩ := exists_len4 _ hY
  obtain ⟨m1, m2, hMe⟩ := exists_len2 _ hM
  obtain ⟨d1, d2, hDe⟩ := exists_len2 _ hD
  rw [hYe] at dY
  rw [hMe] at dM
  rw [hDe] at dD
  have e1 : y1.isDigit = true := dY y1 (by simp)
  have e2 : y2.isDigit = true := dY y2 (by simp)
  have e3 : y3.isDigit = true := dY y3 (by simp)
  have e4 : y4.isDigit = true := dY y4 (by simp)
  have e5 : m1.isDigit = true := dM m1 (by simp)
  have e6 : m2.isDigit = true := dM m2 (by simp)
  have e7 : d1.isDigit = true := dD d1 (by simp)
  have e8 : d2.isDigit = true := dD d2 (by simp)
  unfold pyDateStr isIsoDate
  rw [hYe, hMe, hDe]
  simp [e1, e2, e3, e4, e5, e6, e7, e8]

/-- Admissible characters in a rendered numeric cell. -/
def plainNumChar (c : Char) : Bool := c.isDigit || c == '-' || c == '.' || c == '/'

theorem renderQChars_plain (q : ℚ) :
    (renderQChars q).all plainNumChar = true := by
  have hn : ∀ m : ℕ, (natChars m).all plainNumChar = true := by
    intro m
    refine List.all_eq_true.mpr (fun c hcm => ?_)
    simp [plainNumChar, natChars_digits m c hcm]
  have hpad : ∀ (k m : ℕ), (padZero k (natChars m)).all plainNumChar = true := by
    intro k m
    unfold padZero
    rw [List.all_append]
    refine Bool.and_eq_true_iff.mpr ⟨?_, hn m⟩
    refine List.all_eq_true.mpr (fun c hcm => ?_)
    rw [List.eq_of_mem_replicate hcm]
    decide
  have hsign : (if q.num < 0 then (['-'] : List Char) else []).all plainNumChar = true := by
    split <;> decide
  have hdash : plainNumChar '-' = true := by decide
  have hdot : plainNumChar '.' = true := by decide
  have hslash : plainNumChar '/' = true := by decide
  unfold renderQChars
  dsimp only
  rcases hfind : (List.range 1101).find? (fun k => decide (q.den ∣ 10 ^ k)) with _ | k
  · simp [List.all_append, List.all_cons, hsign, hn, hdash, hdot, hslash]
  · by_cases hk : k = 0
    · subst hk
      simp [List.all_append, hsign, hn, hdash]
    · simp [hk, List.all_append, List.all_cons, hsign, hn, hpad, hdash, hdot]

/-! ### Helper lemma: the four outcomes of a form submission -/

theorem addExpense_cases (ci : ClubInfo) (st : SessionState) (d : PyDate)
    (sel desc : String) (qty : ℕ) (amt : ℚ) :
    (club_errors ci ≠ [] ∧
       addExpense ci st d sel desc qty amt = (st, some clubInfoErrMsg)) ∨
    (club_errors ci = [] ∧ DISPLAY_TO_VALUE.lookup sel = none ∧
       addExpense ci st d sel desc qty amt = (st, some headerErrMsg)) ∨
    (club_errors ci = [] ∧ (∃ v, DISPLAY_TO_VALUE.lookup sel = some v) ∧
       pyStripS desc = "" ∧
       addExpense ci st d sel desc qty amt = (st, some descErrMsg)) ∨
    (club_errors ci = [] ∧ pyStripS desc ≠ "" ∧
       ∃ v, DISPLAY_TO_VALUE.lookup sel = some v ∧
         addExpense ci st d sel desc qty amt =
           ({ expenses := st.expenses ++
                [{ category := some v, description := some (pyStripS desc),
                   qty := (qty : ℚ), amount := amt,
                   totalAmount := (qty : ℚ) * amt,
                   date := some (pyDateStr d) }],
              lastValidCategoryDisplay := some sel }, none)) := by
  unfold addExpense
  by_cases h1 : club_errors ci = []
  · rw [if_neg (by simpa using h1)]
    cases hl : DISPLAY_TO_VALUE.lookup sel with
    | none =>
        dsimp only
        exact Or.inr (Or.inl ⟨h1, rfl, rfl⟩)
    | some v =>
        dsimp only
        by_cases h3 : pyStripS desc = ""
        · rw [if_pos (beq_iff_eq.mpr h3)]
          exact Or.inr (Or.inr (Or.inl ⟨h1, ⟨v, rfl⟩, h3, rfl⟩))
        · rw [if_neg (by simpa using h3)]
          exact Or.inr (Or.inr (Or.inr ⟨h1, h3, v, rfl, rfl⟩))
  · rw [if_pos (by simpa using h1)]
    exact Or.inl ⟨h1, rfl⟩

/-! ### Claim theorems -/

theorem club_errors_ne_nil_iff (ci : ClubInfo) :
    club_errors ci ≠ [] ↔
      (pyStripS ci.officialClubName = "" ∨
       is_valid_email ci.presidentEmail = false ∨
       is_valid_email ci.treasurerEmail = false ∨
       is_valid_email ci.advisorEmail = false) := by
  rw [Ne, club_errors_eq_nil_iff]
  simp only [not_and_or, ne_eq, not_not, Bool.not_eq_true]

/-- C10: in a fresh session the remembered default category selection is
the first leaf entry of the dropdown — the indented "Computers" entry,
whose stored value is "Capital Expenses/Computers", a genuine taxonomy
leaf — and not a header, spacer, or empty value. -/
theorem C10_initial_default_category :
    initState.lastValidCategoryDisplay = some (INDENT ++ "Computers") ∧
    DISPLAY_ITEMS.head? = some ("Capital Expenses" ++ HEADER_SUFFIX) ∧
    DISPLAY_ITEMS[1]? = some (INDENT ++ "Computers") ∧
    DISPLAY_TO_VALUE.lookup (INDENT ++ "Computers") = some "Capital Expenses/Computers" ∧
    isTaxonomyLeafB "Capital Expenses/Computers" = true := by decide

/-- C5: the email validator accepts exactly the strings whose trimmed form
matches `^[^@\s]+@[^@\s]+\.[^@\s]+$`; "name@oit" is rejected,
"name@oit.edu" accepted; and any failing email marks club info invalid. -/
theorem C5_email_validation :
    (∀ s : String, is_valid_email s = true ↔ emailPattern (pyStrip s.data)) ∧
    is_valid_email "name@oit" = false ∧
    is_valid_email "name@oit.edu" = true ∧
    (∀ ci : ClubInfo,
       is_valid_email ci.presidentEmail = false ∨
       is_valid_email ci.treasurerEmail = false ∨
       is_valid_email ci.advisorEmail = false →
       club_errors ci ≠ []) := by
  refine ⟨fun s => emailOk_iff_emailPattern _, by decide, by decide, ?_⟩
  intro ci h hnil
  rw [club_errors_eq_nil_iff] at hnil
  rcases h with h | h | h <;> simp [h] at hnil

theorem C5_email_validation_witness :
    club_errors ⟨"Chess Club", "p@oit.edu", "name@oit", "a@oit.edu"⟩ ≠ [] :=
  C5_email_validation.2.2.2 ⟨"Chess Club", "p@oit.edu", "name@oit", "a@oit.edu"⟩
    (Or.inr (Or.inl (by decide)))

/-- C3: any validation failure of the add form (invalid club info,
non-leaf category, or blank trimmed description) leaves the session state
unchanged: same rows in the same order, same remembered default. -/
theorem C3_validation_failure_state_unchanged (ci : ClubInfo) (st : SessionState)
    (d : PyDate) (sel desc : String) (qty : ℕ) (amt : ℚ)
    (h : club_errors ci ≠ [] ∨ DISPLAY_TO_VALUE.lookup sel = none ∨ pyStripS desc = "") :
    (addExpense ci st d sel desc qty amt).1 = st := by
  rcases addExpense_cases ci st d sel desc qty amt with
    ⟨-, he⟩ | ⟨-, -, he⟩ | ⟨-, -, -, he⟩ | ⟨h1, h3, v, hl, he⟩
  · rw [he]
  · rw [he]
  · rw [he]
  · rcases h with hh | hh | hh
    · exact absurd h1 hh
    · rw [hl] at hh; cases hh
    · exact absurd hh h3

theorem C3_validation_failure_state_unchanged_witness :
    (addExpense ⟨"", "x", "y", "z"⟩ initState ⟨2024, 5, 1⟩ "   Computers" "Pizza" 1 2).1
      = initState :=
  C3_validation_failure_state_unchanged _ _ _ _ _ _ _ (Or.inl (by decide))

/-- C7: with valid club info and a leaf category selected, a description
that is blank after trimming appends no row and raises
"Description is required." -/
theorem C7_blank_description_rejected (ci : ClubInfo) (st : SessionState)
    (d : PyDate) (sel desc : String) (qty : ℕ) (amt : ℚ)
    (h1 : club_errors ci = []) (h2 : (DISPLAY_TO_VALUE.lookup sel).isSome = true)
    (h3 : pyStripS desc = "") :
    addExpense ci st d sel desc qty amt = (st, some descErrMsg) := by
  rcases addExpense_cases ci st d sel desc qty amt with
    ⟨hc, -⟩ | ⟨-, hn, -⟩ | ⟨-, -, -, he⟩ | ⟨-, hne, -, -, -⟩
  · exact absurd h1 hc
  · rw [hn] at h2; cases h2
  · exact he
  · exact absurd h3 hne

theorem C7_blank_description_rejected_witness :
    addExpense ⟨"Chess Club", "p@oit.edu", "t@oit.edu", "a@oit.edu"⟩ initState
        ⟨2024, 5, 1⟩ "   Computers" "   " 1 2
      = (initState, some descErrMsg) :=
  C7_blank_description_rejected _ _ _ _ _ _ _ (by decide) (by decide) (by decide)

/-- C6 counterexample: submitting with a header selected while club info
is invalid raises the club-info error, not the header-rejection error, so
the header-rejection error is not always raised for header selections. -/
theorem C6_counterexample :
    addExpense ⟨"", "x", "y", "z"⟩ initState ⟨2024, 5, 1⟩
        ("Capital Expenses" ++ HEADER_SUFFIX) "Pizza" 1 2
      = (initState, some clubInfoErrMsg) ∧
    ("Capital Expenses" ++ HEADER_SUFFIX) ∈ DISPLAY_ITEMS ∧
    DISPLAY_TO_VALUE.lookup ("Capital Expenses" ++ HEADER_SUFFIX) = none ∧
    clubInfoErrMsg ≠ headerErrMsg := by decide

/-- C6 (amended): submitting with a non-leaf entry selected never appends
a row, and — when club info is valid — raises the header-rejection error
(with invalid club info the club-info error is raised instead). -/
theorem C6_header_rejected (ci : ClubInfo) (st : SessionState) (d : PyDate)
    (sel desc : String) (qty : ℕ) (amt : ℚ)
    (h : DISPLAY_TO_VALUE.lookup sel = none) :
    (addExpense ci st d sel desc qty amt).1 = st ∧
    (club_errors ci = [] →
      addExpense ci st d sel desc qty amt = (st, some headerErrMsg)) := by
  rcases addExpense_cases ci st d sel desc qty amt with
    ⟨hc, he⟩ | ⟨-, -, he⟩ | ⟨-, ⟨v, hl⟩, -, -⟩ | ⟨-, -, v, hl, -⟩
  · rw [he]
    exact ⟨rfl, fun hnil => absurd hnil hc⟩
  · rw [he]
    exact ⟨rfl, fun _ => rfl⟩
  · rw [h] at hl; cases hl
  · rw [h] at hl; cases hl

theorem C6_header_rejected_witness :
    addExpense ⟨"Chess Club", "p@oit.edu", "t@oit.edu", "a@oit.edu"⟩ initState
        ⟨2024, 5, 1⟩ ("Capital Expenses" ++ HEADER_SUFFIX) "Pizza" 1 2
      = (initState, some headerErrMsg) :=
  (C6_header_rejected _ _ _ _ _ _ _ (by decide)).2 (by decide)

/-- C1: after every table-mutating operation — an edit pass over the grid
(which also covers grid row insertion) or a form submission — every row
satisfies `totalAmount = qty * amount`, and the row appended by the form
has `totalAmount = qty * amount` for its quantity and unit amount. -/
theorem C1_totalAmount_recomputed :
    (∀ raw : List RawRow, ∀ r ∈ editPass raw, r.totalAmount = r.qty * r.amount) ∧
    (∀ (ci : ClubInfo) (st : SessionState) (d : PyDate) (sel desc : String)
       (qty : ℕ) (amt : ℚ),
       (∀ r ∈ st.expenses, r.totalAmount = r.qty * r.amount) →
       ∀ r ∈ (addExpense ci st d sel desc qty amt).1.expenses,
         r.totalAmount = r.qty * r.amount) ∧
    (∀ (ci : ClubInfo) (st : SessionState) (d : PyDate) (sel desc : String)
       (qty : ℕ) (amt : ℚ) (r : Row),
       (addExpense ci st d sel desc qty amt).1.expenses = st.expenses ++ [r] →
       r.totalAmount = (qty : ℚ) * amt) := by
  refine ⟨?_, ?_, ?_⟩
  · intro raw r hr
    rcases List.mem_map.mp hr with ⟨x, -, rfl⟩
    rfl
  · intro ci st d sel desc qty amt hinv r hr
    rcases addExpense_cases ci st d sel desc qty amt with
      ⟨-, he⟩ | ⟨-, -, he⟩ | ⟨-, -, -, he⟩ | ⟨-, -, v, -, he⟩
    · rw [he] at hr; exact hinv r hr
    · rw [he] at hr; exact hinv r hr
    · rw [he] at hr; exact hinv r hr
    · rw [he] at hr
      rcases List.mem_append.mp hr with h | h
      · exact hinv r h
      · rcases List.mem_singleton.mp h with rfl
        rfl
  · intro ci st d sel desc qty amt r h
    rcases addExpense_cases ci st d sel desc qty amt with
      ⟨-, he⟩ | ⟨-, -, he⟩ | ⟨-, -, -, he⟩ | ⟨-, -, v, -, he⟩
    · rw [he] at h
      have := congrArg List.length h
      simp at this
    · rw [he] at h
      have := congrArg List.length h
      simp at this
    · rw [he] at h
      have := congrArg List.length h
      simp at this
    · rw [he] at h
      have h2 := List.append_cancel_left h
      rcases List.cons_eq_cons.mp h2 with ⟨rfl, -⟩
      rfl

unseal Rat.mul Rat.inv in
theorem C1_totalAmount_recomputed_witness :
    ({ category := some "Capital Expenses/Computers", description := some "Pizza",
       qty := 3, amount := 12, totalAmount := 36,
       date := some "2024-05-01" } : Row) ∈
      (addExpense ⟨"Chess Club", "p@oit.edu", "t@oit.edu", "a@oit.edu"⟩ initState
        ⟨2024, 5, 1⟩ "   Computers" "Pizza" 3 12).1.expenses ∧
    ({ category := some "Capital Expenses/Computers", description := some "Pizza",
       qty := 3, amount := 12, totalAmount := 36,
       date := some "2024-05-01" } : Row).totalAmount =
      ({ category := some "Capital Expenses/Computers", description := some "Pizza",
         qty := 3, amount := 12, totalAmount := 36,
         date := some "2024-05-01" } : Row).qty *
      ({ category := some "Capital Expenses/Computers", description := some "Pizza",
         qty := 3, amount := 12, totalAmount := 36,
         date := some "2024-05-01" } : Row).amount :=
  ⟨by decide,
   C1_totalAmount_recomputed.2.1 ⟨"Chess Club", "p@oit.edu", "t@oit.edu", "a@oit.edu"⟩
     initState ⟨2024, 5, 1⟩ "   Computers" "Pizza" 3 12
     (by simp [initState]) _ (by decide)⟩

unseal Rat.mul in
/-- C2 counterexample: the grid's category column is editable and the
edit pass keeps whatever string it receives, so a session state whose row
category is not a taxonomy leaf is reachable. -/
theorem C2_counterexample :
    (applyEditPass initState
        [{ category := some "Snacks", description := some "Pizza",
           qty := CellVal.num 3, amount := CellVal.num 4,
           totalAmount := CellVal.num 12,
           date := some "2024-05-01" }]).expenses.map Row.category
      = [some "Snacks"] ∧
    isTaxonomyLeafB "Snacks" = false := by decide

/-- C2 (amended): every row appended through the add form carries a
composite "Main/Sub" category that is a genuine taxonomy leaf; only the
form constrains categories — grid edits are not re-validated. -/
theorem C2_form_rows_are_leaves (ci : ClubInfo) (st : SessionState) (d : PyDate)
    (sel desc : String) (qty : ℕ) (amt : ℚ) (r : Row)
    (h : (addExpense ci st d sel desc qty amt).1.expenses = st.expenses ++ [r]) :
    ∃ v, r.category = some v ∧ isTaxonomyLeafB v = true := by
  rcases addExpense_cases ci st d sel desc qty amt with
    ⟨-, he⟩ | ⟨-, -, he⟩ | ⟨-, -, -, he⟩ | ⟨-, -, v, hl, he⟩
  · rw [he] at h
    have := congrArg List.length h
    simp at this
  · rw [he] at h
    have := congrArg List.length h
    simp at this
  · rw [he] at h
    have := congrArg List.length h
    simp at this
  · rw [he] at h
    have h2 := List.append_cancel_left h
    rcases List.cons_eq_cons.mp h2 with ⟨rfl, -⟩
    exact ⟨v, rfl, lookup_value_is_leaf hl⟩

unseal Rat.mul in
theorem C2_form_rows_are_leaves_witness :
    ∃ v, ({ category := some "Capital Expenses/Computers",
            description := some "Pizza", qty := 3, amount := 12,
            totalAmount := 36, date := some "2024-05-01" } : Row).category = some v ∧
      isTaxonomyLeafB v = true :=
  C2_form_rows_are_leaves ⟨"Chess Club", "p@oit.edu", "t@oit.edu", "a@oit.edu"⟩
    initState ⟨2024, 5, 1⟩ "   Computers" "Pizza" 3 12 _ (by decide)

/-- C9: in an edit pass, non-numeric or missing quantity, unit-amount and
total-amount cells coerce to 0 (rather than raising); row totals are the
product of the coerced quantity and amount, and the grand total is their
sum. -/
theorem C9_numeric_coercion :
    toNum CellVal.nonNum = 0 ∧
    toNum CellVal.missing = 0 ∧
    (∀ q : ℚ, toNum (CellVal.num q) = q) ∧
    (∀ raw : List RawRow,
       (prepDf raw).map Row.qty = raw.map (fun r => toNum r.qty) ∧
       (prepDf raw).map Row.amount = raw.map (fun r => toNum r.amount) ∧
       (prepDf raw).map Row.totalAmount = raw.map (fun r => toNum r.totalAmount)) ∧
    (∀ raw : List RawRow,
       (editPass raw).map Row.totalAmount
         = raw.map (fun r => toNum r.qty * toNum r.amount)) ∧
    (∀ raw : List RawRow,
       grandTotal (editPass raw)
         = (raw.map (fun r => toNum r.qty * toNum r.amount)).sum) := by
  refine ⟨rfl, rfl, fun q => rfl, fun raw => ⟨?_, ?_, ?_⟩, fun raw => ?_, fun raw => ?_⟩
  · rw [prepDf, List.map_map]; rfl
  · rw [prepDf, List.map_map]; rfl
  · rw [prepDf, List.map_map]; rfl
  · rw [editPass, List.map_map]; rfl
  · rw [grandTotal, editPass, List.map_map]; rfl

set_option maxRecDepth 8000 in
/-- The characters of a rendered numeric cell are digits, `-`, `.` or
`/` — in particular no currency symbol and no comma. -/
theorem renderQ_plain (q : ℚ) : (renderQ q).data.all plainNumChar = true :=
  renderQChars_plain q

theorem can_export_eq_false_iff (ci : ClubInfo) (rows : List Row) :
    can_export ci rows = false ↔
      (club_errors ci ≠ [] ∨ blankDescAny rows = true) := by
  unfold can_export
  by_cases hc : club_errors ci = [] <;> by_cases hb : blankDescAny rows = true <;>
    simp [hc, hb]

/-- C4: the CSV export control is rendered whenever the table is
non-empty, and it is disabled exactly when club info is invalid (blank
trimmed name or an email failing the pattern) or some current row has a
blank trimmed description; when disabled it carries the explanatory help
message, and when enabled it carries none. -/
theorem C4_export_gating (ci : ClubInfo) (rows : List Row) (hne : rows ≠ []) :
    ∃ ctl, renderExport ci rows = some ctl ∧
      (ctl.disabled = true ↔
        (pyStripS ci.officialClubName = "" ∨
         is_valid_email ci.presidentEmail = false ∨
         is_valid_email ci.treasurerEmail = false ∨
         is_valid_email ci.advisorEmail = false ∨
         blankDescAny rows = true)) ∧
      (ctl.disabled = true → ctl.helpMsg = some exportHelpMsg) ∧
      (ctl.disabled = false → ctl.helpMsg = none) := by
  refine ⟨exportControl ci rows, ?_, ?_, ?_, ?_⟩
  · unfold renderExport
    rw [if_neg (by simpa using hne)]
  · have h1 : (exportControl ci rows).disabled = true ↔ can_export ci rows = false := by
      unfold exportControl
      cases can_export ci rows <;> simp
    rw [h1, can_export_eq_false_iff, club_errors_ne_nil_iff, or_assoc, or_assoc, or_assoc]
  · intro hdis
    unfold exportControl at hdis ⊢
    rcases hce : can_export ci rows with _ | _
    · rw [if_neg (by simp [hce])]
    · rw [hce] at hdis
      simp at hdis
  · intro hdis
    unfold exportControl at hdis ⊢
    rcases hce : can_export ci rows with _ | _
    · rw [hce] at hdis
      simp at hdis
    · rw [if_pos (by simp [hce])]

theorem C4_export_gating_witness :
    ∃ ctl, renderExport ⟨"", "x", "y", "z"⟩
        [{ category := some "Capital Expenses/Computers", description := some "Pizza",
           qty := 1, amount := 2, totalAmount := 2, date := some "2024-05-01" }]
      = some ctl ∧
      (ctl.disabled = true ↔
        (pyStripS (ClubInfo.mk "" "x" "y" "z").officialClubName = "" ∨
         is_valid_email (ClubInfo.mk "" "x" "y" "z").presidentEmail = false ∨
         is_valid_email (ClubInfo.mk "" "x" "y" "z").treasurerEmail = false ∨
         is_valid_email (ClubInfo.mk "" "x" "y" "z").advisorEmail = false ∨
         blankDescAny
           [{ category := some "Capital Expenses/Computers", description := some "Pizza",
              qty := 1, amount := 2, totalAmount := 2, date := some "2024-05-01" }] = true)) ∧
      (ctl.disabled = true → ctl.helpMsg = some exportHelpMsg) ∧
      (ctl.disabled = false → ctl.helpMsg = none) :=
  C4_export_gating ⟨"", "x", "y", "z"⟩
    [{ category := some "Capital Expenses/Computers", description := some "Pizza",
       qty := 1, amount := 2, totalAmount := 2, date := some "2024-05-01" }]
    (by decide)

unseal Rat.mul in
/-- C8 counterexample: the Date column is stored and exported verbatim, so
an edit pass that writes a non-ISO string into a date cell yields an
exported CSV whose date field is not in `YYYY-MM-DD` form. -/
theorem C8_counterexample :
    ((exportCells ⟨"Chess Club", "p@oit.edu", "t@oit.edu", "a@oit.edu"⟩
        (editPass
          [{ category := some "Event Supplies/Food/snacks", description := some "Pizza",
             qty := CellVal.num 3, amount := CellVal.num 12,
             totalAmount := CellVal.missing,
             date := some "05/01/2024" }])).getD 1 []).getD 9 ""
      = "05/01/2024" ∧
    isIsoDate "05/01/2024" = false := by decide

/-- C8 (amended): the exported CSV consists of exactly one header row
with the fixed column order, followed by one row per line item in table
order; numeric cells are rendered in plain decimal with no currency
symbol (no `$`, no `,`); date cells are exported verbatim as stored, and
rows appended through the add form store ISO `YYYY-MM-DD` dates. -/
theorem C8_export_structure :
    (∀ (ci : ClubInfo) (rows : List Row),
       (exportCells ci rows).length = rows.length + 1) ∧
    (∀ (ci : ClubInfo) (rows : List Row),
       (exportCells ci rows).head? = some EXPORT_HEADER) ∧
    (∀ (ci : ClubInfo) (rows : List Row) (i : ℕ),
       (exportCells ci rows)[i + 1]? = (rows[i]?).map (exportRow ci)) ∧
    (∀ q : ℚ, '$' ∉ (renderQ q).data ∧ ',' ∉ (renderQ q).data) ∧
    (∀ (ci : ClubInfo) (r : Row),
       (exportRow ci r).getD 9 "" = r.date.getD "") ∧
    (∀ (ci : ClubInfo) (st : SessionState) (d : PyDate) (sel desc : String)
       (qty : ℕ) (amt : ℚ) (r : Row),
       d.year ≤ 9999 → d.month ≤ 99 → d.day ≤ 99 →
       (addExpense ci st d sel desc qty amt).1.expenses = st.expenses ++ [r] →
       r.date = some (pyDateStr d) ∧ isIsoDate (pyDateStr d) = true) := by
  refine ⟨?_, ?_, ?_, ?_, ?_, ?_⟩
  · intro ci rows
    simp [exportCells]
  · intro ci rows
    rfl
  · intro ci rows i
    simp [exportCells]
  · intro q
    constructor <;> intro hmem
    · exact absurd (List.all_eq_true.mp (renderQ_plain q) _ hmem) (by decide)
    · exact absurd (List.all_eq_true.mp (renderQ_plain q) _ hmem) (by decide)
  · intro ci r
    rfl
  · intro ci st d sel desc qty amt r hy hm hd h
    rcases addExpense_cases ci st d sel desc qty amt with
      ⟨-, he⟩ | ⟨-, -, he⟩ | ⟨-, -, -, he⟩ | ⟨-, -, v, -, he⟩
    · rw [he] at h
      have := congrArg List.length h
      simp at this
    · rw [he] at h
      have := congrArg List.length h
      simp at this
    · rw [he] at h
      have := congrArg List.length h
      simp at this
    · rw [he] at h
      have h2 := List.append_cancel_left h
      rcases List.cons_eq_cons.mp h2 with ⟨rfl, -⟩
      exact ⟨rfl, pyDateStr_isIso d hy hm hd⟩

set_option maxRecDepth 4000 in
unseal Rat.mul in
theorem C8_export_structure_witness :
    ({ category := some "Capital Expenses/Computers", description := some "Pizza",
       qty := 3, amount := 12, totalAmount := 36,
       date := some "2024-05-01" } : Row).date = some (pyDateStr ⟨2024, 5, 1⟩) ∧
    isIsoDate (pyDateStr ⟨2024, 5, 1⟩) = true :=
  C8_export_structure.2.2.2.2.2 ⟨"Chess Club", "p@oit.edu", "t@oit.edu", "a@oit.edu"⟩
    initState ⟨2024, 5, 1⟩ "   Computers" "Pizza" 3 12 _
    (by decide) (by decide) (by decide) (by decide)
